import Mathlib

/-!
Shallow embedding of the ecsdemo-frontend CDK application (src/cdk/app.py).

The Python source is a single-pass, branch-free construction of two stack
classes plus an application entry point.  Each CDK construct call is
translated to a Lean record literal built in the same statement order as
the source; the ambient process environment (os.getenv) is passed in
explicitly as a function from variable names to optional values.
-/

namespace EcsdemoFrontend

/-- The process environment: os.getenv reads from it. -/
abbrev OsEnv := String → Option String

/-- Translation of Python os.getenv(name). -/
def getenv (os_env : OsEnv) (name : String) : Option String := os_env name

/-- Translation of core.Fn.import_value(name): a deferred cross-stack
reference, modelled as a tagged token string. -/
def importValue (name : String) : String := "ImportValue(" ++ name ++ ")"

/-- Core of Python str.format with positional placeholders: walks the
template characters, replacing each brace pair (char codes 123, 125) with
the next argument.  (A missing argument raises in Python; that branch is
unreachable for the templates in this source, which always receive exactly
as many arguments as placeholders, so it is modelled as leaving the pair.) -/
def pyFormatAux : List Char → List String → List Char
  | [], _ => []
  | [c], _ => [c]
  | c1 :: c2 :: rest, args =>
    if c1.toNat == 123 && c2.toNat == 125 then
      match args with
      | a :: args2 => a.data ++ pyFormatAux rest args2
      | [] => c1 :: c2 :: pyFormatAux rest []
    else
      c1 :: pyFormatAux (c2 :: rest) args

/-- Translation of Python template.format(args...). -/
def pyFormat (template : String) (args : List String) : String :=
  String.mk (pyFormatAux template.data args)

/-- Resource kinds appearing in (or relevant to the frame of) the stacks. -/
inductive ResourceKind
  | vpcLookup
  | namespaceRef
  | clusterRef
  | securityGroupRef
  | taskImageOptions
  | albFargateService
  | policyStatement
  | connectionRule
  | virtualNode
  | virtualRouter
  | route
  | virtualService
  | gatewayRoute
deriving DecidableEq, Repr

/-- One created (or looked-up) resource of a stack. -/
structure Resource where
  kind : ResourceKind
  id : String
deriving DecidableEq, Repr

/-- BasePlatform (app.py lines 19-49): lookups of the externally created
VPC, service-discovery namespace, cluster and security group. -/
structure BasePlatform where
  environment_name : String
  vpc_name : String
  sd_namespace_name : String
  sd_namespace_arn : String
  sd_namespace_id : String
  ecs_cluster_name : String
  services_sec_grp_id : String
  resources : List Resource
deriving DecidableEq, Repr

/-- Translation of BasePlatform.__init__. -/
def mkBasePlatform : BasePlatform :=
  let environment_name := "ecsworkshop"
  { environment_name
    vpc_name := pyFormat "\x7b\x7d-base/BaseVPC" [environment_name]
    sd_namespace_name := importValue "NSNAME"
    sd_namespace_arn := importValue "NSARN"
    sd_namespace_id := importValue "NSID"
    ecs_cluster_name := importValue "ECSClusterName"
    services_sec_grp_id := importValue "ServicesSecGrp"
    resources :=
      [⟨.vpcLookup, "VPC"⟩, ⟨.namespaceRef, "SDNamespace"⟩,
       ⟨.clusterRef, "ECSCluster"⟩, ⟨.securityGroupRef, "ServicesSecGrp"⟩] }

/-- aws_ecs_patterns.ApplicationLoadBalancedTaskImageOptions. -/
structure TaskImageOptions where
  image : String
  container_port : Nat
  environment : List (String × Option String)
deriving DecidableEq, Repr

/-- aws_ecs_patterns.ApplicationLoadBalancedFargateService (only the
options the source sets). -/
structure AlbFargateService where
  service_name : String
  cpu : Nat
  memory_limit_mib : Nat
  desired_count : Nat
  public_load_balancer : Bool
  task_image_options : TaskImageOptions
deriving DecidableEq, Repr

/-- aws_iam.PolicyStatement. -/
structure PolicyStatement where
  actions : List String
  resources : List String
deriving DecidableEq, Repr

/-- aws_ec2.Port. -/
structure PortRange where
  protocol : String
  string_representation : String
  from_port : Nat
  to_port : Nat
deriving DecidableEq, Repr

/-- The direct-strategy stack FrontendService (app.py lines 52-104). -/
structure FrontendServiceStack where
  base_platform : BasePlatform
  fargate_task_image : TaskImageOptions
  fargate_load_balanced_service : AlbFargateService
  task_role_statements : List PolicyStatement
  allow_to_sec_grp : List PortRange
  resources : List Resource
deriving DecidableEq, Repr

/-- Translation of FrontendService.__init__: statement-by-statement in
source order.  The autoscaling block (lines 93-104) is commented out in
the source and therefore absent here. -/
def mkFrontendService (os_env : OsEnv) : FrontendServiceStack :=
  let base_platform := mkBasePlatform
  let fargate_task_image : TaskImageOptions :=
    { image := "public.ecr.aws/aws-containers/ecsdemo-frontend"
      container_port := 3000
      environment :=
        [("CRYSTAL_URL", some "http://ecsdemo-crystal.service.local:3000/crystal"),
         ("NODEJS_URL", some "http://ecsdemo-nodejs.service.local:3000"),
         ("REGION", getenv os_env "AWS_DEFAULT_REGION")] }
  let fargate_load_balanced_service : AlbFargateService :=
    { service_name := "ecsdemo-frontend"
      cpu := 256
      memory_limit_mib := 512
      desired_count := 1
      public_load_balancer := true
      task_image_options := fargate_task_image }
  { base_platform
    fargate_task_image
    fargate_load_balanced_service
    task_role_statements :=
      [{ actions := ["ec2:DescribeSubnets"], resources := ["*"] }]
    allow_to_sec_grp :=
      [{ protocol := "TCP", string_representation := "frontendtobackend"
         from_port := 3000, to_port := 3000 }]
    resources := base_platform.resources ++
      [⟨.taskImageOptions, "fargate_task_image"⟩,
       ⟨.albFargateService, "FrontendFargateLBService"⟩,
       ⟨.policyStatement, "TaskRoleDescribeSubnets"⟩,
       ⟨.connectionRule, "frontendtobackend"⟩] }

/-- aws_ecs.AppMeshProxyConfigurationProps. -/
structure AppMeshProxyConfigurationProps where
  app_ports : List Nat
  proxy_ingress_port : Nat
  proxy_egress_port : Nat
  egress_ignored_i_ps : List String
  ignored_uid : Nat
deriving DecidableEq, Repr

/-- aws_ecs.AppMeshProxyConfiguration. -/
structure AppMeshProxyConfiguration where
  container_name : String
  properties : AppMeshProxyConfigurationProps
deriving DecidableEq, Repr

/-- aws_ecs.TaskDefinition (only the options the source sets). -/
structure TaskDefinition where
  compatibility : String
  cpu : String
  memory_mib : String
  proxy_configuration : AppMeshProxyConfiguration
deriving DecidableEq, Repr

/-- aws_logs.LogGroup. -/
structure LogGroup where
  id : String
  retention : String
deriving DecidableEq, Repr

/-- aws_ecs.HealthCheck, with durations in seconds. -/
structure HealthCheck where
  interval_seconds : Nat
  timeout_seconds : Nat
  retries : Nat
  command : List String
deriving DecidableEq, Repr

/-- aws_ecs.ContainerDependencyCondition. -/
inductive ContainerDependencyCondition
  | START
  | COMPLETE
  | SUCCESS
  | HEALTHY
deriving DecidableEq, Repr

/-- aws_ecs.ContainerDependency; the depended-on container is recorded by
its container_name. -/
structure ContainerDependency where
  container : String
  condition : ContainerDependencyCondition
deriving DecidableEq, Repr

/-- aws_ecs.PortMapping. -/
structure PortMapping where
  container_port : Nat
deriving DecidableEq, Repr

/-- aws_ecs.Ulimit. -/
structure Ulimit where
  hard_limit : Nat
  name : String
  soft_limit : Nat
deriving DecidableEq, Repr

/-- A container definition added to a task definition via add_container,
together with the mutations (add_port_mappings, add_ulimits,
add_container_dependencies) the source applies to it. -/
structure ContainerDefinition where
  id : String
  image : String
  log_stream : String
  essential : Bool
  memory_reservation_mib : Nat
  environment : List (String × Option String)
  container_name : String
  port_mappings : List PortMapping
  health_check : Option HealthCheck
  user : Option String
  ulimits : List Ulimit
  container_dependencies : List ContainerDependency
deriving DecidableEq, Repr

/-- The Cloud Map service created for the Fargate service by its
cloud_map_options. -/
structure CloudMapService where
  service_name : String
  namespace_name : String
deriving DecidableEq, Repr

/-- aws_ecs.FargateService (only the options the source sets). -/
structure FargateService where
  service_name : String
  desired_count : Nat
  security_group : String
  cloud_map_service : CloudMapService
deriving DecidableEq, Repr

/-- An imported aws_appmesh.VirtualService
(from_virtual_service_attributes). -/
structure VirtualServiceRef where
  mesh : String
  virtual_service_name : String
deriving DecidableEq, Repr

/-- aws_appmesh.VirtualNode. -/
structure VirtualNode where
  mesh : String
  virtual_node_name : String
  listener_ports : List Nat
  service_discovery : CloudMapService
  backends : List VirtualServiceRef
  access_log : String
deriving DecidableEq, Repr

/-- The virtual_node_arn attribute: a deployment-time token derived from
the node. -/
def VirtualNode.virtual_node_arn (vn : VirtualNode) : String :=
  "Token(VirtualNodeArn:" ++ vn.virtual_node_name ++ ")"

/-- aws_appmesh.WeightedTarget. -/
structure WeightedTarget where
  virtual_node : VirtualNode
  weight : Nat
deriving DecidableEq, Repr

/-- A route added to a virtual router via add_route, with an HTTP route
spec of weighted targets. -/
structure Route where
  id : String
  route_name : String
  weighted_targets : List WeightedTarget
deriving DecidableEq, Repr

/-- aws_appmesh.VirtualRouter, together with the routes added to it. -/
structure VirtualRouter where
  mesh : String
  listener_ports : List Nat
  virtual_router_name : String
  routes : List Route
deriving DecidableEq, Repr

/-- Translation of VirtualRouter.add_route. -/
def VirtualRouter.add_route (vr : VirtualRouter) (id : String)
    (weighted_targets : List WeightedTarget) (route_name : String) :
    VirtualRouter :=
  { vr with routes := vr.routes ++ [⟨id, route_name, weighted_targets⟩] }

/-- aws_appmesh.VirtualService backed by a virtual-router provider. -/
structure VirtualService where
  provider_router : String
  virtual_service_name : String
deriving DecidableEq, Repr

/-- A gateway route added via VirtualGateway.add_gateway_route. -/
structure GatewayRoute where
  gateway : String
  gateway_route_name : String
  route_target : String
deriving DecidableEq, Repr

/-- The gateway_route_arn attribute: a deployment-time token. -/
def GatewayRoute.gateway_route_arn (gr : GatewayRoute) : String :=
  "Token(GatewayRouteArn:" ++ gr.gateway_route_name ++ ")"

/-- Which task-definition role a managed policy is attached to. -/
inductive TaskDefRole
  | executionRole
  | taskRole
deriving DecidableEq, Repr

/-- One add_managed_policy call on a task-definition role. -/
structure ManagedPolicyAttachment where
  role : TaskDefRole
  policy_name : String
deriving DecidableEq, Repr

/-- The object returned by auto_scale_task_count. -/
structure AutoScaleTaskCount where
  min_capacity : Nat
  max_capacity : Nat
deriving DecidableEq, Repr

/-- One scale_on_cpu_utilization call, durations in seconds. -/
structure CpuUtilizationScaling where
  id : String
  target_utilization_percent : Nat
  scale_in_cooldown_seconds : Nat
  scale_out_cooldown_seconds : Nat
deriving DecidableEq, Repr

/-- An ingress rule opened by connections.allow_from_any_ipv4. -/
structure IngressRule where
  source : String
  port_range : PortRange
  description : String
deriving DecidableEq, Repr

/-- A core.CfnOutput export. -/
structure CfnOutput where
  id : String
  value : String
  export_name : String
deriving DecidableEq, Repr

/-- The mesh-strategy stack FrontendServiceMesh (app.py lines 107-347). -/
structure FrontendServiceMeshStack where
  base_platform : BasePlatform
  mesh : String
  mesh_vgw_name : String
  mesh_crystal_vs : VirtualServiceRef
  mesh_nodejs_vs : VirtualServiceRef
  fargate_task_def : TaskDefinition
  logGroup : LogGroup
  app_container : ContainerDefinition
  fargate_service : FargateService
  mesh_frontend_vn : VirtualNode
  envoy_container : ContainerDefinition
  task_role_statements : List PolicyStatement
  ingress_rules : List IngressRule
  managed_policy_attachments : List ManagedPolicyAttachment
  meshVR : VirtualRouter
  mesh_frontend_vs : VirtualService
  mesh_gt_router : GatewayRoute
  autoscale : AutoScaleTaskCount
  cpu_scaling : CpuUtilizationScaling
  outputs : List CfnOutput
deriving DecidableEq, Repr

/-- Translation of FrontendServiceMesh.__init__: statement-by-statement
in source order.  The xray container block (lines 259-278) and the xray
managed policy (line 296) are commented out in the source and therefore
absent here. -/
def mkFrontendServiceMesh (os_env : OsEnv) : FrontendServiceMeshStack :=
  let base_platform := mkBasePlatform
  let mesh := importValue "MeshArn"
  let mesh_vgw_name := importValue "MeshVGWName"
  let mesh_crystal_vs : VirtualServiceRef :=
    { mesh, virtual_service_name := importValue "MeshCrystalVSName" }
  let mesh_nodejs_vs : VirtualServiceRef :=
    { mesh, virtual_service_name := importValue "MeshNodeJsVSName" }
  let fargate_task_def : TaskDefinition :=
    { compatibility := "EC2_AND_FARGATE"
      cpu := "256"
      memory_mib := "512"
      proxy_configuration :=
        { container_name := "envoy"
          properties :=
            { app_ports := [3000]
              proxy_ingress_port := 15000
              proxy_egress_port := 15001
              egress_ignored_i_ps := ["169.254.170.2", "169.254.169.254"]
              ignored_uid := 1337 } } }
  let logGroup : LogGroup :=
    { id := "ecsworkshopFrontendLogGroup", retention := "ONE_WEEK" }
  let app_container0 : ContainerDefinition :=
    { id := "FrontendServiceContainerDef"
      image := "public.ecr.aws/aws-containers/ecsdemo-frontend"
      log_stream := "/frontend-container"
      essential := true
      memory_reservation_mib := 128
      environment :=
        [("CRYSTAL_URL", some "http://ecsdemo-crystal.service.local:3000/crystal"),
         ("NODEJS_URL", some "http://ecsdemo-nodejs.service.local:3000"),
         ("REGION", getenv os_env "AWS_DEFAULT_REGION")]
      container_name := "frontend-app"
      port_mappings := []
      health_check := none
      user := none
      ulimits := []
      container_dependencies := [] }
  let app_container1 : ContainerDefinition :=
    { app_container0 with port_mappings := app_container0.port_mappings ++ [⟨3000⟩] }
  let fargate_service : FargateService :=
    { service_name := "ecsdemo-frontend"
      desired_count := 3
      security_group := base_platform.services_sec_grp_id
      cloud_map_service :=
        { service_name := "ecsdemo-frontend"
          namespace_name := base_platform.sd_namespace_name } }
  let mesh_frontend_vn : VirtualNode :=
    { mesh
      virtual_node_name := "frontend"
      listener_ports := [3000]
      service_discovery := fargate_service.cloud_map_service
      backends := [mesh_crystal_vs, mesh_nodejs_vs]
      access_log := "/dev/stdout" }
  let envoy_container0 : ContainerDefinition :=
    { id := "FrontendServiceProxyContdef"
      image := "public.ecr.aws/appmesh/aws-appmesh-envoy:v1.18.3.0-prod"
      log_stream := "/mesh-envoy-container"
      essential := true
      memory_reservation_mib := 128
      environment :=
        [("REGION", getenv os_env "AWS_DEFAULT_REGION"),
         ("ENVOY_LOG_LEVEL", some "critical"),
         ("ENABLE_ENVOY_STATS_TAGS", some "1"),
         ("APPMESH_RESOURCE_ARN", some mesh_frontend_vn.virtual_node_arn)]
      container_name := "envoy"
      port_mappings := []
      health_check := some
        { interval_seconds := 5
          timeout_seconds := 10
          retries := 10
          command :=
            ["CMD-SHELL",
             "curl -s http://localhost:9901/server_info | grep state | grep -q LIVE"] }
      user := some "1337"
      ulimits := []
      container_dependencies := [] }
  let envoy_container : ContainerDefinition :=
    { envoy_container0 with
        ulimits := envoy_container0.ulimits ++
          [{ hard_limit := 15000, name := "nofile", soft_limit := 15000 }] }
  let app_container : ContainerDefinition :=
    { app_container1 with
        container_dependencies := app_container1.container_dependencies ++
          [{ container := envoy_container.container_name
             condition := ContainerDependencyCondition.HEALTHY }] }
  let meshVR0 : VirtualRouter :=
    { mesh
      listener_ports := [3000]
      virtual_router_name := "FrontEnd"
      routes := [] }
  let meshVR := meshVR0.add_route "MeshFrontEndVRRoute"
    [{ virtual_node := mesh_frontend_vn, weight := 1 }] "frontend-a"
  let mesh_frontend_vs : VirtualService :=
    { provider_router := meshVR.virtual_router_name
      virtual_service_name := pyFormat "\x7b\x7d.\x7b\x7d"
        [fargate_service.cloud_map_service.service_name,
         fargate_service.cloud_map_service.namespace_name] }
  let mesh_gt_router : GatewayRoute :=
    { gateway := mesh_vgw_name
      gateway_route_name := "frontend-router"
      route_target := mesh_frontend_vs.virtual_service_name }
  { base_platform
    mesh
    mesh_vgw_name
    mesh_crystal_vs
    mesh_nodejs_vs
    fargate_task_def
    logGroup
    app_container
    fargate_service
    mesh_frontend_vn
    envoy_container
    task_role_statements :=
      [{ actions := ["ec2:DescribeSubnets"], resources := ["*"] }]
    ingress_rules :=
      [{ source := "any_ipv4"
         port_range :=
           { protocol := "TCP", string_representation := "tcp_3000"
             from_port := 3000, to_port := 3000 }
         description := "Allow TCP connections on port 3000" }]
    managed_policy_attachments :=
      [{ role := .executionRole, policy_name := "AmazonEC2ContainerRegistryReadOnly" },
       { role := .executionRole, policy_name := "CloudWatchLogsFullAccess" },
       { role := .taskRole, policy_name := "CloudWatchFullAccess" },
       { role := .taskRole, policy_name := "AWSAppMeshEnvoyAccess" }]
    meshVR
    mesh_frontend_vs
    mesh_gt_router
    autoscale := { min_capacity := 3, max_capacity := 10 }
    cpu_scaling :=
      { id := "CPUAutoscaling"
        target_utilization_percent := 50
        scale_in_cooldown_seconds := 30
        scale_out_cooldown_seconds := 30 }
    outputs :=
      [{ id := "MeshFrontendVNARN", value := mesh_frontend_vn.virtual_node_arn
         export_name := "MeshFrontendVNARN" },
       { id := "MeshFrontendVNName", value := mesh_frontend_vn.virtual_node_name
         export_name := "MeshFrontendVNName" },
       { id := "MeshFrontendVGRARN", value := mesh_gt_router.gateway_route_arn
         export_name := "MeshFrontendVGRARN" }] }

/-- The construct/mutation statements of FrontendServiceMesh.__init__, in
source order (app.py lines 112-347), identified by construct id or, for
mutations and attachments without one, by a descriptive id. -/
def meshConstructionSteps : List String :=
  ["BasePlatform",
   "EcsWorkShop-AppMesh",
   "Mesh-VGW",
   "mesh-crystal-vs",
   "mesh-nodejs-vs",
   "FrontEndTaskDef",
   "ecsworkshopFrontendLogGroup",
   "FrontendServiceContainerDef",
   "AppContainerPortMapping",
   "FrontEndFargateService",
   "MeshFrontEndNode",
   "FrontendServiceProxyContdef",
   "EnvoyUlimit",
   "AppContainerDependency",
   "TaskRoleDescribeSubnetsPolicy",
   "AllowFromAnyIpv4",
   "ExecRoleRegistryPolicy",
   "ExecRoleLogsPolicy",
   "TaskRoleCloudWatchPolicy",
   "TaskRoleEnvoyPolicy",
   "MeshVirtualRouter",
   "MeshFrontEndVRRoute",
   "mesh-frontend-vs",
   "MeshVGWRouter",
   "AutoScaleTaskCount",
   "CPUAutoscaling",
   "MeshFrontendVNARN",
   "MeshFrontendVNName",
   "MeshFrontendVGRARN"]

/-- The object references each statement of FrontendServiceMesh.__init__
makes to previously constructed objects: pairs (referrer, referee), read
off the source expression of each statement. -/
def meshStepReferences : List (String × String) :=
  [("Mesh-VGW", "EcsWorkShop-AppMesh"),
   ("mesh-crystal-vs", "EcsWorkShop-AppMesh"),
   ("mesh-nodejs-vs", "EcsWorkShop-AppMesh"),
   ("FrontendServiceContainerDef", "FrontEndTaskDef"),
   ("FrontendServiceContainerDef", "ecsworkshopFrontendLogGroup"),
   ("AppContainerPortMapping", "FrontendServiceContainerDef"),
   ("FrontEndFargateService", "FrontEndTaskDef"),
   ("FrontEndFargateService", "BasePlatform"),
   ("MeshFrontEndNode", "EcsWorkShop-AppMesh"),
   ("MeshFrontEndNode", "FrontEndFargateService"),
   ("MeshFrontEndNode", "mesh-crystal-vs"),
   ("MeshFrontEndNode", "mesh-nodejs-vs"),
   ("FrontendServiceProxyContdef", "FrontEndTaskDef"),
   ("FrontendServiceProxyContdef", "MeshFrontEndNode"),
   ("FrontendServiceProxyContdef", "ecsworkshopFrontendLogGroup"),
   ("EnvoyUlimit", "FrontendServiceProxyContdef"),
   ("AppContainerDependency", "FrontendServiceContainerDef"),
   ("AppContainerDependency", "FrontendServiceProxyContdef"),
   ("TaskRoleDescribeSubnetsPolicy", "FrontEndTaskDef"),
   ("AllowFromAnyIpv4", "FrontEndFargateService"),
   ("ExecRoleRegistryPolicy", "FrontEndTaskDef"),
   ("ExecRoleLogsPolicy", "FrontEndTaskDef"),
   ("TaskRoleCloudWatchPolicy", "FrontEndTaskDef"),
   ("TaskRoleEnvoyPolicy", "FrontEndTaskDef"),
   ("MeshVirtualRouter", "EcsWorkShop-AppMesh"),
   ("MeshFrontEndVRRoute", "MeshVirtualRouter"),
   ("MeshFrontEndVRRoute", "MeshFrontEndNode"),
   ("mesh-frontend-vs", "MeshVirtualRouter"),
   ("mesh-frontend-vs", "FrontEndFargateService"),
   ("MeshVGWRouter", "Mesh-VGW"),
   ("MeshVGWRouter", "mesh-frontend-vs"),
   ("AutoScaleTaskCount", "FrontEndFargateService"),
   ("CPUAutoscaling", "AutoScaleTaskCount"),
   ("MeshFrontendVNARN", "MeshFrontEndNode"),
   ("MeshFrontendVNName", "MeshFrontEndNode"),
   ("MeshFrontendVGRARN", "MeshVGWRouter")]

/-- Position of a step id in a step list (length of the list if absent). -/
def stepIndex : List String → String → Nat
  | [], _ => 0
  | s :: rest, x => if s = x then 0 else stepIndex rest x + 1

/-- The mesh-entity step ids of the construction pass: virtual node,
virtual router, route, virtual service, gateway route. -/
def meshEntitySteps : List String :=
  ["MeshFrontEndNode", "MeshVirtualRouter", "MeshFrontEndVRRoute",
   "mesh-frontend-vs", "MeshVGWRouter"]

/-- Which provisioning strategy a stack instance uses. -/
inductive SynthesizedStack
  | direct (s : FrontendServiceStack)
  | mesh (s : FrontendServiceMeshStack)

/-- True for a direct-strategy stack instance. -/
def SynthesizedStack.isDirect : SynthesizedStack → Bool
  | .direct _ => true
  | .mesh _ => false

/-- Module-level constant: environment = "ecsworkshop" (app.py line 351). -/
def app_environment : String := "ecsworkshop"

/-- Module-level constant: stack_name (app.py line 352). -/
def app_stack_name : String := pyFormat "\x7b\x7d-frontend" [app_environment]

/-- The stacks the entry point adds to the app before app.synth()
(app.py lines 353-358): only FrontendService is instantiated; the
FrontendServiceMesh instantiation (line 357) is commented out. -/
def appStacks (os_env : OsEnv) : List (String × SynthesizedStack) :=
  [(app_stack_name, SynthesizedStack.direct (mkFrontendService os_env))]

/-- A concrete process environment used to instantiate the theorems. -/
def sampleOsEnv : OsEnv :=
  fun name =>
    if name = "AWS_ACCOUNT_ID" then some "123456789012"
    else if name = "AWS_DEFAULT_REGION" then some "us-east-1"
    else none

/-! ## Theorems about the claims -/

/-- C1: in the mesh-strategy stack, the application container is declared
with a startup dependency on the envoy sidecar container with condition
HEALTHY, so in every synthesized mesh task specification the application
container does not start until the sidecar reports healthy. -/
theorem app_container_waits_on_envoy_healthy (os_env : OsEnv) :
    (mkFrontendServiceMesh os_env).envoy_container.container_name = "envoy" ∧
    (mkFrontendServiceMesh os_env).app_container.container_dependencies =
      [{ container := "envoy"
         condition := ContainerDependencyCondition.HEALTHY }] :=
  ⟨rfl, rfl⟩

/-- C2: the mesh-strategy stack enables service autoscaling with minimum
capacity 3, maximum capacity 10, CPU-utilization target 50 percent, and
scale-in and scale-out cooldowns of 30 seconds each. -/
theorem mesh_autoscaling_config (os_env : OsEnv) :
    (mkFrontendServiceMesh os_env).autoscale =
      { min_capacity := 3, max_capacity := 10 } ∧
    (mkFrontendServiceMesh os_env).cpu_scaling =
      { id := "CPUAutoscaling"
        target_utilization_percent := 50
        scale_in_cooldown_seconds := 30
        scale_out_cooldown_seconds := 30 } :=
  ⟨rfl, rfl⟩

/-- C3: for every synthesis of the direct-strategy stack, no mesh entity
(virtual node, virtual router, virtual service, gateway route) is among
the resources that stack creates or looks up. -/
theorem direct_stack_creates_no_mesh_entity (os_env : OsEnv) :
    ((mkFrontendService os_env).resources.all fun r =>
      decide (r.kind ≠ ResourceKind.virtualNode ∧
              r.kind ≠ ResourceKind.virtualRouter ∧
              r.kind ≠ ResourceKind.virtualService ∧
              r.kind ≠ ResourceKind.gatewayRoute)) = true :=
  rfl

/-- C4: the mesh-strategy virtual router has exactly one route, whose
route specification has exactly one weighted target, that target is the
frontend virtual node, and its weight is 1. -/
theorem mesh_router_single_route_weight_one (os_env : OsEnv) :
    (mkFrontendServiceMesh os_env).meshVR.routes.length = 1 ∧
    ((mkFrontendServiceMesh os_env).meshVR.routes.map Route.weighted_targets) =
      [[{ virtual_node := (mkFrontendServiceMesh os_env).mesh_frontend_vn
          weight := 1 }]] :=
  ⟨rfl, rfl⟩

/-- C5: for both provisioning strategies the produced service
specification exposes container port 3000, and whenever AWS_DEFAULT_REGION
is set to a non-empty value, the application container's REGION
environment variable is that same value. -/
theorem both_strategies_port_3000_and_region_forwarded (os_env : OsEnv)
    (r : String) (hset : os_env "AWS_DEFAULT_REGION" = some r) (hne : r ≠ "") :
    (mkFrontendService os_env).fargate_task_image.container_port = 3000 ∧
    ((mkFrontendServiceMesh os_env).app_container.port_mappings.map
      PortMapping.container_port) = [3000] ∧
    (mkFrontendService os_env).fargate_task_image.environment.lookup "REGION" =
      some (some r) ∧
    (mkFrontendServiceMesh os_env).app_container.environment.lookup "REGION" =
      some (some r) := by
  refine ⟨rfl, rfl, ?_, ?_⟩ <;>
    simp [mkFrontendService, mkFrontendServiceMesh, getenv, List.lookup, hset]

/-- Witness for C5 at a concrete process environment. -/
theorem both_strategies_port_3000_and_region_forwarded_witness :
    sampleOsEnv "AWS_DEFAULT_REGION" = some "us-east-1" ∧
    ((mkFrontendService sampleOsEnv).fargate_task_image.container_port = 3000 ∧
     ((mkFrontendServiceMesh sampleOsEnv).app_container.port_mappings.map
       PortMapping.container_port) = [3000] ∧
     (mkFrontendService sampleOsEnv).fargate_task_image.environment.lookup
       "REGION" = some (some "us-east-1") ∧
     (mkFrontendServiceMesh sampleOsEnv).app_container.environment.lookup
       "REGION" = some (some "us-east-1")) :=
  ⟨by decide,
   both_strategies_port_3000_and_region_forwarded sampleOsEnv "us-east-1"
     (by decide) (by decide)⟩

/-- C6: in the mesh-strategy construction pass every statement references
only objects constructed by earlier statements; in particular the
frontend virtual node is constructed before the sidecar container whose
APPMESH_RESOURCE_ARN environment value reads the node's ARN. -/
theorem mesh_pass_no_forward_references (os_env : OsEnv) :
    (meshStepReferences.all fun p =>
      Nat.blt (stepIndex meshConstructionSteps p.2)
        (stepIndex meshConstructionSteps p.1)) = true ∧
    stepIndex meshConstructionSteps "MeshFrontEndNode" <
      stepIndex meshConstructionSteps "FrontendServiceProxyContdef" ∧
    (mkFrontendServiceMesh os_env).envoy_container.environment.lookup
      "APPMESH_RESOURCE_ARN" =
      some (some ((mkFrontendServiceMesh os_env).mesh_frontend_vn.virtual_node_arn)) :=
  ⟨by decide, by decide, rfl⟩

/-- C7: the sidecar container's liveness probe is the given curl-grep
shell command with a 5-second interval, a 10-second timeout, and 10
retries before the container is marked unhealthy. -/
theorem envoy_health_check_config (os_env : OsEnv) :
    (mkFrontendServiceMesh os_env).envoy_container.health_check =
      some { interval_seconds := 5
             timeout_seconds := 10
             retries := 10
             command :=
               ["CMD-SHELL",
                "curl -s http://localhost:9901/server_info | grep state | grep -q LIVE"] } :=
  rfl

/-- C8 counterexample: the mesh-strategy stack does not attach exactly
three managed permission sets; it attaches four. -/
theorem mesh_managed_policy_count_not_three :
    ¬ (mkFrontendServiceMesh sampleOsEnv).managed_policy_attachments.length = 3 := by
  decide

/-- C8 (amended): the mesh-strategy provisioner attaches exactly four
managed permission sets — registry pull and log write on the execution
role, and monitoring write and mesh envoy access on the task role. -/
theorem mesh_managed_policy_attachments_four (os_env : OsEnv) :
    (mkFrontendServiceMesh os_env).managed_policy_attachments =
      [{ role := .executionRole, policy_name := "AmazonEC2ContainerRegistryReadOnly" },
       { role := .executionRole, policy_name := "CloudWatchLogsFullAccess" },
       { role := .taskRole, policy_name := "CloudWatchFullAccess" },
       { role := .taskRole, policy_name := "AWSAppMeshEnvoyAccess" }] ∧
    (mkFrontendServiceMesh os_env).managed_policy_attachments.length = 4 :=
  ⟨rfl, rfl⟩

/-- C9: for any environment name the base-platform VPC lookup key renders
as the environment name followed by "-base/BaseVPC", and with the
constant environment name of the source it is exactly
"ecsworkshop-base/BaseVPC". -/
theorem base_platform_vpc_lookup_key (name : String) :
    pyFormat "\x7b\x7d-base/BaseVPC" [name] = name ++ "-base/BaseVPC" ∧
    mkBasePlatform.vpc_name = "ecsworkshop-base/BaseVPC" := by
  constructor
  · obtain ⟨data⟩ := name
    rfl
  · rfl

/-- C10: the entry point instantiates only the direct-strategy stack,
named "ecsworkshop-frontend", before synthesis; every stack the app
synthesizes uses the direct strategy. -/
theorem app_instantiates_only_direct_stack (os_env : OsEnv) :
    ((appStacks os_env).map Prod.fst) = ["ecsworkshop-frontend"] ∧
    ((appStacks os_env).all fun p => p.2.isDirect) = true :=
  ⟨rfl, rfl⟩

end EcsdemoFrontend
